import Mathlib

/-!
Shallow embedding of the portfolio-construction core of
src/src/edhec_risk_kit.py, together with theorems settling the frozen
claims about its specification.

Machine floats are modelled by exact real (or rational) arithmetic.  The
external iterative solver scipy.optimize.minimize is not part of the
repository; each wrapper function is therefore parameterised by an
abstract solver that receives exactly the problem data the source builds
(objective, initial guess, equality-constraint list, box bounds) and
returns a result record with an iterate x and a success flag, mirroring
scipy's OptimizeResult.  The wrappers themselves are translated line by
line from the source.
-/

namespace EdhecRiskKit

open Matrix BigOperators

noncomputable section RealEmbedding

/-- portfolio_return (line 227): np.dot of the weight vector and the
(annualized) return vector. -/
def portfolio_return {n : ℕ} (weights vec_returns : Fin n → ℝ) : ℝ :=
  weights ⬝ᵥ vec_returns

/-- The quadratic form np.dot(weights.T, np.dot(cov_rets, weights))
appearing in portfolio_volatility (line 242). -/
def portfolioQuadForm {n : ℕ} (weights : Fin n → ℝ)
    (cov_rets : Matrix (Fin n) (Fin n) ℝ) : ℝ :=
  weights ⬝ᵥ (cov_rets *ᵥ weights)

/-- portfolio_volatility (line 236): the quadratic form raised to the
power 0.5.  Over the reals, x ** 0.5 is Real.sqrt x (both vanish on
negative input; the float computation instead yields NaN there, which is
tracked separately by volatilityIsReal). -/
def portfolio_volatility {n : ℕ} (weights : Fin n → ℝ)
    (cov_rets : Matrix (Fin n) (Fin n) ℝ) : ℝ :=
  Real.sqrt (portfolioQuadForm weights cov_rets)

/-- The float expression (...) ** 0.5 in portfolio_volatility produces a
real number (not NaN) exactly when the radicand is nonnegative. -/
def volatilityIsReal {n : ℕ} (weights : Fin n → ℝ)
    (cov_rets : Matrix (Fin n) (Fin n) ℝ) : Prop :=
  0 ≤ portfolioQuadForm weights cov_rets

/-- annualize_vol (line 171), scalar branch (line 188): an
already-computed per-period volatility is annualized as
s * periods_per_year ** 0.5. -/
def annualize_vol (s : ℝ) (periods_per_year : ℕ) : ℝ :=
  s * Real.sqrt (periods_per_year : ℝ)

/-- sharpe_ratio (line 191), scalar branch (line 221): s is an already
annualized return, v an already annualized volatility, and the annual
risk-free rate is used as-is: (s - risk_free_rate) / v. -/
def sharpe_ratio (s risk_free_rate v : ℝ) : ℝ :=
  (s - risk_free_rate) / v

/-- annualize_rets (line 155), Series branch: compound growth of the
period returns raised to the power periods_per_year / n_periods, minus
one.  The exponent is a real power (Real.rpow). -/
def annualize_rets {T : ℕ} (s : Fin T → ℝ) (periods_per_year : ℕ) : ℝ :=
  (∏ t, (1 + s t)) ^ ((periods_per_year : ℝ) / (T : ℝ)) - 1

/-- neg_portfolio_sharpe_ratio (line 568, nested in maximize_shape_ratio):
minus the scalar-branch sharpe ratio of the portfolio return and the
annualized portfolio volatility. -/
def neg_portfolio_sharpe_ratio {n : ℕ} (weights rets : Fin n → ℝ)
    (covmatrix : Matrix (Fin n) (Fin n) ℝ) (risk_free_rate : ℝ)
    (periods_per_year : ℕ) : ℝ :=
  -(sharpe_ratio (portfolio_return weights rets) risk_free_rate
      (annualize_vol (portfolio_volatility weights covmatrix) periods_per_year))

/-- The data handed to scipy.optimize.minimize by the source: objective,
initial guess, the tuple of type-eq constraint functions (zero at
feasible points), and the common box bound applied to every coordinate
(none when bounds=None). -/
structure MinimizeProblem (n : ℕ) where
  objective : (Fin n → ℝ) → ℝ
  x0 : Fin n → ℝ
  eqConstraints : List ((Fin n → ℝ) → ℝ)
  bounds : Option (ℝ × ℝ)

/-- scipy's OptimizeResult, restricted to the fields the source could
consult: the final iterate x and the success flag. -/
structure OptimizeResult (n : ℕ) where
  x : Fin n → ℝ
  success : Bool

/-- The problem minimize_volatility (line 459) builds: objective is the
portfolio volatility, initial guess the equal-weight vector
np.repeat(1/n, n), constraints are (return_constraint, weights_constraint)
when a target return is given and just the weights constraint otherwise,
and every weight is bounded to (0.0, 1.0). -/
def minVolProblem {n : ℕ} (rets : Fin n → ℝ)
    (covmatrix : Matrix (Fin n) (Fin n) ℝ) (target_return : Option ℝ) :
    MinimizeProblem n :=
  { objective := fun w => portfolio_volatility w covmatrix
    x0 := fun _ => ((n : ℝ))⁻¹
    eqConstraints :=
      match target_return with
      | some target =>
          [fun w => target - portfolio_return w rets,
           fun w => 1 - ∑ i, w i]
      | none => [fun w => 1 - ∑ i, w i]
    bounds := some (0, 1) }

/-- minimize_volatility (line 459): hands the problem to the solver and
returns result.x unconditionally (the success flag is never read). -/
def minimize_volatility {n : ℕ}
    (solver : MinimizeProblem n → OptimizeResult n) (rets : Fin n → ℝ)
    (covmatrix : Matrix (Fin n) (Fin n) ℝ) (target_return : Option ℝ) :
    Fin n → ℝ :=
  (solver (minVolProblem rets covmatrix target_return)).x

/-- The problem maximize_shape_ratio (line 544) builds: objective is the
nested neg_portfolio_sharpe_ratio, initial guess the equal-weight vector,
constraints are (volatility_constraint, weights_constraint) when a target
volatility is given and just the weights constraint otherwise, and every
weight is bounded to (0.0, 1.0). -/
def maxSRProblem {n : ℕ} (rets : Fin n → ℝ)
    (covmatrix : Matrix (Fin n) (Fin n) ℝ) (risk_free_rate : ℝ)
    (periods_per_year : ℕ) (target_volatility : Option ℝ) :
    MinimizeProblem n :=
  { objective := fun w =>
      neg_portfolio_sharpe_ratio w rets covmatrix risk_free_rate
        periods_per_year
    x0 := fun _ => ((n : ℝ))⁻¹
    eqConstraints :=
      match target_volatility with
      | some target =>
          [fun w =>
            target -
              annualize_vol (portfolio_volatility w covmatrix)
                periods_per_year,
           fun w => 1 - ∑ i, w i]
      | none => [fun w => 1 - ∑ i, w i]
    bounds := some (0, 1) }

/-- maximize_shape_ratio (line 544): hands the problem to the solver and
returns result.x unconditionally (the success flag is never read). -/
def maximize_shape_ratio {n : ℕ}
    (solver : MinimizeProblem n → OptimizeResult n) (rets : Fin n → ℝ)
    (covmatrix : Matrix (Fin n) (Fin n) ℝ) (risk_free_rate : ℝ)
    (periods_per_year : ℕ) (target_volatility : Option ℝ) : Fin n → ℝ :=
  (solver
      (maxSRProblem rets covmatrix risk_free_rate periods_per_year
        target_volatility)).x

/-- np.linspace(start, stop, num) with the default endpoint=True: num
points start + i * (stop - start) / (num - 1). -/
def linspace (start stop : ℝ) (num : ℕ) : List ℝ :=
  (List.range num).map
    (fun (i : ℕ) => start + (i : ℝ) * ((stop - start) / ((num : ℝ) - 1)))

/-- The pandas .min() aggregation over a nonempty return vector (0 for an
empty one, a case the source would reject upstream). -/
def vecMin {n : ℕ} (f : Fin n → ℝ) : ℝ :=
  if h : 0 < n then
    Finset.univ.inf' (Finset.univ_nonempty_iff.mpr ⟨⟨0, h⟩⟩) f
  else 0

/-- The pandas .max() aggregation over a nonempty return vector. -/
def vecMax {n : ℕ} (f : Fin n → ℝ) : ℝ :=
  if h : 0 < n then
    Finset.univ.sup' (Finset.univ_nonempty_iff.mpr ⟨⟨0, h⟩⟩) f
  else 0

/-- optimal_weights (line 448): build the target grid
np.linspace(rets.min(), rets.max(), n_points) and solve one
target-return-constrained minimum-volatility problem per grid point.
The periods_per_year argument is accepted and unused, as in the source. -/
def optimal_weights {n : ℕ}
    (solver : MinimizeProblem n → OptimizeResult n) (n_points : ℕ)
    (rets : Fin n → ℝ) (covmatrix : Matrix (Fin n) (Fin n) ℝ)
    (periods_per_year : ℕ) : List (Fin n → ℝ) :=
  (linspace (vecMin rets) (vecMax rets) n_points).map
    (fun target => minimize_volatility solver rets covmatrix (some target))

/-- One labeled portfolio row of the efficient_frontier output: weights
followed by the Volatility, Return and Sharpe Ratio columns. -/
structure PortfolioRecord (n : ℕ) where
  weights : Fin n → ℝ
  vol : ℝ
  ret : ℝ
  spr : ℝ

/-- The data efficient_frontier returns: the frontier table (weights and
the Volatility / Return / Sharpe Ratio columns, in grid order) and the
three special portfolios msr, mvp, ewp. -/
structure FrontierResult (n : ℕ) where
  efWeights : List (Fin n → ℝ)
  efVol : List ℝ
  efRet : List ℝ
  efSpr : List ℝ
  msr : PortfolioRecord n
  mvp : PortfolioRecord n
  ewp : PortfolioRecord n

/-- efficient_frontier (line 245), plotting omitted: annualize the raw
returns column-wise, sweep the target grid through minimize_volatility,
report each portfolio's return (dot with annualized returns), volatility
(annualized per-period portfolio volatility) and sharpe ratio, then build
the maximum-sharpe, minimum-volatility and equally-weighted rows the same
way (lines 298-301, 325-328, 344-347). -/
def efficient_frontier {T n : ℕ}
    (solver : MinimizeProblem n → OptimizeResult n) (n_portfolios : ℕ)
    (rets : Matrix (Fin T) (Fin n) ℝ) (covmat : Matrix (Fin n) (Fin n) ℝ)
    (periods_per_year : ℕ) (risk_free_rate : ℝ) : FrontierResult n :=
  let ann_rets : Fin n → ℝ :=
    fun j => annualize_rets (fun t => rets t j) periods_per_year
  let weights :=
    optimal_weights solver n_portfolios ann_rets covmat periods_per_year
  let portfolio_ret := weights.map (fun w => portfolio_return w ann_rets)
  let vols := weights.map (fun w => portfolio_volatility w covmat)
  let portfolio_vol := vols.map (fun v => annualize_vol v periods_per_year)
  let portfolio_spr :=
    List.zipWith (fun r v => sharpe_ratio r risk_free_rate v) portfolio_ret
      portfolio_vol
  let wm := maximize_shape_ratio solver ann_rets covmat risk_free_rate
    periods_per_year none
  let retm := portfolio_return wm ann_rets
  let volm := annualize_vol (portfolio_volatility wm covmat) periods_per_year
  let wv := minimize_volatility solver ann_rets covmat none
  let retv := portfolio_return wv ann_rets
  let volv := annualize_vol (portfolio_volatility wv covmat) periods_per_year
  let we : Fin n → ℝ := fun _ => ((n : ℝ))⁻¹
  let rete := portfolio_return we ann_rets
  let vole := annualize_vol (portfolio_volatility we covmat) periods_per_year
  { efWeights := weights
    efVol := portfolio_vol
    efRet := portfolio_ret
    efSpr := portfolio_spr
    msr := ⟨wm, volm, retm, sharpe_ratio retm risk_free_rate volm⟩
    mvp := ⟨wv, volv, retv, sharpe_ratio retv risk_free_rate volv⟩
    ewp := ⟨we, vole, rete, sharpe_ratio rete risk_free_rate vole⟩ }

/-- The SLSQP success contract from the spec, relative to the problem the
source hands to the solver: every type-eq constraint of the problem is
satisfied by the result within the absolute tolerance, and every
coordinate of the result respects the box bounds within the tolerance. -/
def respectsConstraints {n : ℕ} (prob : MinimizeProblem n)
    (res : OptimizeResult n) (tol : ℝ) : Prop :=
  (∀ c ∈ prob.eqConstraints, |c res.x| ≤ tol) ∧
    ∀ b ∈ prob.bounds, ∀ i, b.1 - tol ≤ res.x i ∧ res.x i ≤ b.2 + tol

/-- A labeled portfolio record whose reported volatility is the
square-root-of-time annualization sqrt(w^T Σ w) * sqrt(periods_per_year)
and whose reported return is the dot product of its weights with the
column-wise annualized per-asset returns. -/
def recordReportsSqrtTimeVol {T n : ℕ} (P : PortfolioRecord n)
    (covmat : Matrix (Fin n) (Fin n) ℝ) (rets : Matrix (Fin T) (Fin n) ℝ)
    (periods_per_year : ℕ) : Prop :=
  P.vol =
      Real.sqrt (portfolioQuadForm P.weights covmat) *
        Real.sqrt (periods_per_year : ℝ) ∧
    P.ret =
      P.weights ⬝ᵥ fun j => annualize_rets (fun t => rets t j) periods_per_year

end RealEmbedding

/-!
List-level embedding over ℚ, used for the shape-validation claim: here
vector and matrix sizes are carried by the data, not the types, so a
dimension mismatch between the return vector and the covariance matrix is
expressible.  np.dot raises ValueError on mismatched operand shapes,
modelled as none.
-/

/-- np.dot of two 1-D arrays: errors (none) unless the lengths agree. -/
def dotL (a b : List ℚ) : Option ℚ :=
  if a.length = b.length then some ((List.zipWith (· * ·) a b).sum)
  else none

/-- np.dot of a 2-D array and a 1-D array: errors (none) unless every row
has the vector's length. -/
def matVecL (m : List (List ℚ)) (v : List ℚ) : Option (List ℚ) :=
  if ∀ row ∈ m, row.length = v.length then
    some (m.map (fun row => (List.zipWith (· * ·) row v).sum))
  else none

/-- The quadratic form np.dot(weights.T, np.dot(cov_rets, weights)) of
portfolio_volatility (line 242) at the list level: the inner product
errors first on a covariance/weights mismatch, then the outer one on a
row-count/weights mismatch. -/
def quadFormL (weights : List ℚ) (cov_rets : List (List ℚ)) : Option ℚ :=
  (matVecL cov_rets weights).bind (fun mv => dotL weights mv)

/-- List-level minimize problem: same fields as MinimizeProblem, with the
objective and the return constraint able to error (none) the way numpy
raises inside a callback, and with the per-coordinate bounds tuple. -/
structure MinimizeProblemL where
  objective : List ℚ → Option ℝ
  x0 : List ℚ
  eqConstraints : List (List ℚ → Option ℚ)
  bounds : List (ℚ × ℚ)

/-- List-level OptimizeResult: the final iterate. -/
structure OptimizeResultL where
  x : List ℚ

/-- The problem minimize_volatility (line 459) builds, at the list level.
n_assets is read from rets alone (line 467); the covariance matrix is
passed through to the objective without any shape inspection. -/
noncomputable def minVolProblemL (rets : List ℚ) (covmatrix : List (List ℚ))
    (target_return : Option ℚ) : MinimizeProblemL :=
  let n := rets.length
  { objective := fun w => (quadFormL w covmatrix).map (fun q => Real.sqrt q)
    x0 := List.replicate n ((n : ℚ))⁻¹
    eqConstraints :=
      match target_return with
      | some target =>
          [fun w => (dotL w rets).map (fun pr => target - pr),
           fun w => some (1 - w.sum)]
      | none => [fun w => some (1 - w.sum)]
    bounds := List.replicate n (0, 1) }

/-- minimize_volatility (line 459) at the list level: builds the problem
and returns the solver's result.x; no input validation of any kind
happens before the solver call. -/
noncomputable def minimize_volatilityL
    (solver : MinimizeProblemL → OptimizeResultL) (rets : List ℚ)
    (covmatrix : List (List ℚ)) (target_return : Option ℚ) : List ℚ :=
  (solver (minVolProblemL rets covmatrix target_return)).x

/-- The return vector and covariance matrix shapes are incompatible: the
covariance is not rets-length square (not square, or sized differently
from the return vector). -/
def covShapeMismatchL (rets : List ℚ) (covmatrix : List (List ℚ)) : Prop :=
  ¬ (covmatrix.length = rets.length ∧
      ∀ row ∈ covmatrix, row.length = rets.length)

/-!
Embedding of the closed-form tangency routine over ℚ.  The helper
inverse_df that it calls (line 606) is not defined anywhere in the
provided source, so it is modelled from the spec.
-/

/-- The error taxonomy entry for the closed-form tangency routine. -/
inductive TangencyError where
  | singularCovariance
  deriving DecidableEq

/-- Modelled from the spec: inverse_df, the matrix-inversion helper
called at line 606 but absent from the provided source file.  Per the
spec, the routine requires the covariance matrix to be invertible and
fails with a numerical error if it is singular; a nonsingular matrix is
inverted exactly (determinant-inverse times adjugate). -/
def inverse_df {n : ℕ} (d : Matrix (Fin n) (Fin n) ℚ) :
    Option (Matrix (Fin n) (Fin n) ℚ) :=
  if d.det = 0 then none else some ((d.det)⁻¹ • d.adjugate)

/-- weigths_max_sharpe_ratio (line 599): w = inverse_df(covmat).dot(mu_exc),
normalized by its sum when scale is set (the default). -/
def weigths_max_sharpe_ratio {n : ℕ} (covmat : Matrix (Fin n) (Fin n) ℚ)
    (mu_exc : Fin n → ℚ) (scale : Bool := true) :
    Except TangencyError (Fin n → ℚ) :=
  match inverse_df covmat with
  | none => .error .singularCovariance
  | some cinv =>
      let w := cinv *ᵥ mu_exc
      if scale then .ok (fun i => w i / ∑ j, w j) else .ok w

/-!
Theorems settling the claims.
-/

/-- Claim C7: for every weight vector w, the maximum-Sharpe optimizer's
objective function equals the negative annualized Sharpe ratio
-(portfolio_return(w, r) - rf) / (sqrt(w^T Σ w) * sqrt(periods_per_year)),
where the annual risk-free rate rf enters unconverted, consistent with the
already-annualized return vector r. -/
theorem maxSR_objective_is_neg_annualized_sharpe {n : ℕ}
    (rets : Fin n → ℝ) (covmatrix : Matrix (Fin n) (Fin n) ℝ)
    (risk_free_rate : ℝ) (periods_per_year : ℕ)
    (target_volatility : Option ℝ) :
    (maxSRProblem rets covmatrix risk_free_rate periods_per_year
        target_volatility).objective =
      fun w =>
        -((portfolio_return w rets - risk_free_rate) /
          (Real.sqrt (portfolioQuadForm w covmatrix) *
            Real.sqrt (periods_per_year : ℝ))) :=
  rfl

/-- Claim C3: for every weight vector and every positive-semidefinite covariance
matrix, the quadratic form w^T Σ w is nonnegative, so the square root in
portfolio_volatility is taken of a nonnegative radicand (no NaN arises)
and the resulting volatility is nonnegative. -/
theorem portfolio_volatility_nonneg_of_posSemidef {n : ℕ}
    (weights : Fin n → ℝ) (cov_rets : Matrix (Fin n) (Fin n) ℝ)
    (hcov : cov_rets.PosSemidef) :
    volatilityIsReal weights cov_rets ∧
      0 ≤ portfolio_volatility weights cov_rets := by
  have h := hcov.2 weights
  refine ⟨?_, Real.sqrt_nonneg _⟩
  simpa [volatilityIsReal, portfolioQuadForm] using h

/-- Witness for C3 at a concrete PSD covariance matrix and weight
vector. -/
theorem portfolio_volatility_nonneg_of_posSemidef_witness :
    (Matrix.diagonal (![1, 4] : Fin 2 → ℝ)).PosSemidef ∧
      (volatilityIsReal ![3, -5] (Matrix.diagonal (![1, 4] : Fin 2 → ℝ)) ∧
        0 ≤ portfolio_volatility ![3, -5]
            (Matrix.diagonal (![1, 4] : Fin 2 → ℝ))) := by
  have hpsd : (Matrix.diagonal (![1, 4] : Fin 2 → ℝ)).PosSemidef :=
    Matrix.PosSemidef.diagonal (by
      intro i
      fin_cases i <;> norm_num)
  exact ⟨hpsd, portfolio_volatility_nonneg_of_posSemidef ![3, -5] _ hpsd⟩

/-- Claim C10: in the assembled frontier and in each special portfolio, the
reported volatility is sqrt(w^T Σ w) * sqrt(periods_per_year) and the
reported return is the dot product of the weights with the column-wise
annualized per-asset returns. -/
theorem frontier_vol_is_sqrt_time_scaled {T n : ℕ}
    (solver : MinimizeProblem n → OptimizeResult n) (n_portfolios : ℕ)
    (rets : Matrix (Fin T) (Fin n) ℝ) (covmat : Matrix (Fin n) (Fin n) ℝ)
    (periods_per_year : ℕ) (risk_free_rate : ℝ) :
    (efficient_frontier solver n_portfolios rets covmat periods_per_year
          risk_free_rate).efVol =
        (efficient_frontier solver n_portfolios rets covmat periods_per_year
            risk_free_rate).efWeights.map
          (fun w =>
            Real.sqrt (portfolioQuadForm w covmat) *
              Real.sqrt (periods_per_year : ℝ)) ∧
      (efficient_frontier solver n_portfolios rets covmat periods_per_year
          risk_free_rate).efRet =
        (efficient_frontier solver n_portfolios rets covmat periods_per_year
            risk_free_rate).efWeights.map
          (fun w =>
            w ⬝ᵥ fun j => annualize_rets (fun t => rets t j) periods_per_year) ∧
      (recordReportsSqrtTimeVol
          (efficient_frontier solver n_portfolios rets covmat periods_per_year
            risk_free_rate).msr covmat rets periods_per_year ∧
        recordReportsSqrtTimeVol
          (efficient_frontier solver n_portfolios rets covmat periods_per_year
            risk_free_rate).mvp covmat rets periods_per_year ∧
        recordReportsSqrtTimeVol
          (efficient_frontier solver n_portfolios rets covmat periods_per_year
            risk_free_rate).ewp covmat rets periods_per_year) := by
  refine ⟨?_, rfl, ⟨rfl, rfl⟩, ⟨rfl, rfl⟩, ⟨rfl, rfl⟩⟩
  simp only [efficient_frontier, List.map_map]
  rfl

/-- The sum-to-one weights constraint of line 470 is always among the
equality constraints minimize_volatility passes to the solver, whether or
not a target return is requested. -/
theorem weights_constraint_mem_minVol {n : ℕ} (rets : Fin n → ℝ)
    (covmatrix : Matrix (Fin n) (Fin n) ℝ) (target_return : Option ℝ) :
    (fun w => 1 - ∑ i, w i) ∈
      (minVolProblem rets covmatrix target_return).eqConstraints := by
  cases target_return <;> simp [minVolProblem]

/-- The sum-to-one weights constraint of line 556 is always among the
equality constraints maximize_shape_ratio passes to the solver. -/
theorem weights_constraint_mem_maxSR {n : ℕ} (rets : Fin n → ℝ)
    (covmatrix : Matrix (Fin n) (Fin n) ℝ) (risk_free_rate : ℝ)
    (periods_per_year : ℕ) (target_volatility : Option ℝ) :
    (fun w => 1 - ∑ i, w i) ∈
      (maxSRProblem rets covmatrix risk_free_rate periods_per_year
          target_volatility).eqConstraints := by
  cases target_volatility <;> simp [maxSRProblem]

/-- Claim C1 (amended): both optimizers install the sum-to-one equality
constraint and the per-weight box bounds (0, 1), and return the solver's
iterate unchanged; hence whenever the solver's result satisfies the
constraints it was given to within 1e-6, the returned weight vector sums
to 1 within 1e-6 and every component lies in [-1e-6, 1 + 1e-6].  (The
claim as stated, for every returned vector, fails: the source returns
result.x even when the solve failed, see the counterexample.) -/
theorem optimizer_weights_within_tolerance {n : ℕ}
    (solver : MinimizeProblem n → OptimizeResult n) (rets : Fin n → ℝ)
    (covmatrix : Matrix (Fin n) (Fin n) ℝ) (target_return : Option ℝ)
    (risk_free_rate : ℝ) (periods_per_year : ℕ)
    (target_volatility : Option ℝ)
    (hmv : respectsConstraints (minVolProblem rets covmatrix target_return)
      (solver (minVolProblem rets covmatrix target_return)) 1e-6)
    (hms : respectsConstraints
      (maxSRProblem rets covmatrix risk_free_rate periods_per_year
        target_volatility)
      (solver
        (maxSRProblem rets covmatrix risk_free_rate periods_per_year
          target_volatility)) 1e-6) :
    (|(∑ i, minimize_volatility solver rets covmatrix target_return i) - 1| ≤
        1e-6 ∧
      ∀ i, -1e-6 ≤ minimize_volatility solver rets covmatrix target_return i ∧
        minimize_volatility solver rets covmatrix target_return i ≤
          1 + 1e-6) ∧
      (|(∑ i, maximize_shape_ratio solver rets covmatrix risk_free_rate
            periods_per_year target_volatility i) - 1| ≤ 1e-6 ∧
        ∀ i, -1e-6 ≤ maximize_shape_ratio solver rets covmatrix risk_free_rate
            periods_per_year target_volatility i ∧
          maximize_shape_ratio solver rets covmatrix risk_free_rate
              periods_per_year target_volatility i ≤ 1 + 1e-6) := by
  constructor
  · constructor
    · have h := hmv.1 _ (weights_constraint_mem_minVol rets covmatrix
        target_return)
      rw [abs_sub_comm]
      simpa using h
    · intro i
      have h := hmv.2 (0, 1) rfl i
      exact ⟨by simpa [zero_sub] using h.1, by simpa using h.2⟩
  · constructor
    · have h := hms.1 _ (weights_constraint_mem_maxSR rets covmatrix
        risk_free_rate periods_per_year target_volatility)
      rw [abs_sub_comm]
      simpa using h
    · intro i
      have h := hms.2 (0, 1) rfl i
      exact ⟨by simpa [zero_sub] using h.1, by simpa using h.2⟩

/-- Witness for C1 (amended): a one-asset instance whose solver result
satisfies the constraints exactly. -/
theorem optimizer_weights_within_tolerance_witness :
    respectsConstraints (minVolProblem ![0.1] (1 : Matrix (Fin 1) (Fin 1) ℝ)
        none)
      ((fun _ => ⟨fun _ => 1, true⟩ :
        MinimizeProblem 1 → OptimizeResult 1)
        (minVolProblem ![0.1] 1 none)) 1e-6 ∧
      respectsConstraints (maxSRProblem ![0.1] (1 : Matrix (Fin 1) (Fin 1) ℝ)
          0 12 none)
        ((fun _ => ⟨fun _ => 1, true⟩ :
          MinimizeProblem 1 → OptimizeResult 1)
          (maxSRProblem ![0.1] 1 0 12 none)) 1e-6 ∧
      ((|(∑ i, minimize_volatility
            (fun _ => ⟨fun _ => 1, true⟩ :
              MinimizeProblem 1 → OptimizeResult 1) ![0.1] 1 none i) - 1| ≤
          1e-6 ∧
        ∀ i, -1e-6 ≤ minimize_volatility
            (fun _ => ⟨fun _ => 1, true⟩ :
              MinimizeProblem 1 → OptimizeResult 1) ![0.1] 1 none i ∧
          minimize_volatility
              (fun _ => ⟨fun _ => 1, true⟩ :
                MinimizeProblem 1 → OptimizeResult 1) ![0.1] 1 none i ≤
            1 + 1e-6) ∧
        (|(∑ i, maximize_shape_ratio
              (fun _ => ⟨fun _ => 1, true⟩ :
                MinimizeProblem 1 → OptimizeResult 1) ![0.1] 1 0 12 none i) -
            1| ≤ 1e-6 ∧
          ∀ i, -1e-6 ≤ maximize_shape_ratio
              (fun _ => ⟨fun _ => 1, true⟩ :
                MinimizeProblem 1 → OptimizeResult 1) ![0.1] 1 0 12 none i ∧
            maximize_shape_ratio
                (fun _ => ⟨fun _ => 1, true⟩ :
                  MinimizeProblem 1 → OptimizeResult 1) ![0.1] 1 0 12 none i ≤
              1 + 1e-6)) := by
  have hmv : respectsConstraints
      (minVolProblem ![0.1] (1 : Matrix (Fin 1) (Fin 1) ℝ) none)
      ((fun _ => ⟨fun _ => 1, true⟩ :
        MinimizeProblem 1 → OptimizeResult 1)
        (minVolProblem ![0.1] 1 none)) 1e-6 := by
    constructor
    · intro c hc
      simp only [minVolProblem, List.mem_singleton] at hc
      subst hc
      norm_num
    · intro b hb i
      simp only [minVolProblem, Option.mem_def, Option.some.injEq] at hb
      subst hb
      norm_num
  have hms : respectsConstraints
      (maxSRProblem ![0.1] (1 : Matrix (Fin 1) (Fin 1) ℝ) 0 12 none)
      ((fun _ => ⟨fun _ => 1, true⟩ :
        MinimizeProblem 1 → OptimizeResult 1)
        (maxSRProblem ![0.1] 1 0 12 none)) 1e-6 := by
    constructor
    · intro c hc
      simp only [maxSRProblem, List.mem_singleton] at hc
      subst hc
      norm_num
    · intro b hb i
      simp only [maxSRProblem, Option.mem_def, Option.some.injEq] at hb
      subst hb
      norm_num
  exact ⟨hmv, hms,
    optimizer_weights_within_tolerance _ ![0.1] 1 none 0 12 none hmv hms⟩

/-- Counterexample for C1 as stated: target return 0.5 exceeds the
largest attainable portfolio return 0.2, so the constrained problem is
infeasible; SLSQP then stops unsuccessfully at some last iterate (here
the all-ones vector, inside the box bounds but violating the sum
constraint) and minimize_volatility still returns it, with component sum
2 rather than within 1e-6 of 1. -/
theorem optimizer_weights_within_tolerance_cex :
    ¬ (|(∑ i, minimize_volatility
          (fun _ => ⟨fun _ => 1, false⟩ :
            MinimizeProblem 2 → OptimizeResult 2)
          ![0.1, 0.2] (1 : Matrix (Fin 2) (Fin 2) ℝ) (some 0.5) i) - 1| ≤
        1e-6) := by
  have hx : (∑ i, minimize_volatility
      (fun _ => ⟨fun _ => 1, false⟩ : MinimizeProblem 2 → OptimizeResult 2)
      ![0.1, 0.2] (1 : Matrix (Fin 2) (Fin 2) ℝ) (some 0.5) i) = 2 := by
    simp [minimize_volatility, Fin.sum_univ_two]
  rw [hx]
  norm_num

/-- Claim C2 (amended): neither optimizer inspects the solver's success flag;
even when the solve is reported unsuccessful, each returns the solver's
last iterate result.x unchanged, so convergence failure is not surfaced
to the caller as a distinct condition. -/
theorem optimizer_returns_iterate_regardless_of_success {n : ℕ}
    (solver : MinimizeProblem n → OptimizeResult n) (rets : Fin n → ℝ)
    (covmatrix : Matrix (Fin n) (Fin n) ℝ) (target_return : Option ℝ)
    (risk_free_rate : ℝ) (periods_per_year : ℕ)
    (target_volatility : Option ℝ)
    (hmv : (solver (minVolProblem rets covmatrix target_return)).success =
      false)
    (hms : (solver
        (maxSRProblem rets covmatrix risk_free_rate periods_per_year
          target_volatility)).success = false) :
    minimize_volatility solver rets covmatrix target_return =
        (solver (minVolProblem rets covmatrix target_return)).x ∧
      maximize_shape_ratio solver rets covmatrix risk_free_rate
          periods_per_year target_volatility =
        (solver
            (maxSRProblem rets covmatrix risk_free_rate periods_per_year
              target_volatility)).x :=
  ⟨rfl, rfl⟩

/-- Witness for C2 (amended): a concrete always-unsuccessful solver. -/
theorem optimizer_returns_iterate_regardless_of_success_witness :
    ((fun _ => ⟨fun _ => 1, false⟩ :
        MinimizeProblem 2 → OptimizeResult 2)
        (minVolProblem ![0.1, 0.2] (1 : Matrix (Fin 2) (Fin 2) ℝ)
          (some 0.5))).success = false ∧
      ((fun _ => ⟨fun _ => 1, false⟩ :
        MinimizeProblem 2 → OptimizeResult 2)
        (maxSRProblem ![0.1, 0.2] (1 : Matrix (Fin 2) (Fin 2) ℝ) 0 12
          none)).success = false ∧
      (minimize_volatility
          (fun _ => ⟨fun _ => 1, false⟩ :
            MinimizeProblem 2 → OptimizeResult 2) ![0.1, 0.2] 1 (some 0.5) =
          ((fun _ => ⟨fun _ => 1, false⟩ :
            MinimizeProblem 2 → OptimizeResult 2)
            (minVolProblem ![0.1, 0.2] 1 (some 0.5))).x ∧
        maximize_shape_ratio
            (fun _ => ⟨fun _ => 1, false⟩ :
              MinimizeProblem 2 → OptimizeResult 2) ![0.1, 0.2] 1 0 12 none =
          ((fun _ => ⟨fun _ => 1, false⟩ :
            MinimizeProblem 2 → OptimizeResult 2)
            (maxSRProblem ![0.1, 0.2] 1 0 12 none)).x) :=
  ⟨rfl, rfl,
    optimizer_returns_iterate_regardless_of_success _ ![0.1, 0.2] 1
      (some 0.5) 0 12 none rfl rfl⟩

/-- Counterexample for C2 as stated: on a concrete infeasible instance
(target return 0.5 with returns capped at 0.2) the wrapper returns the
failed solve's infeasible last iterate, the all-ones vector, as an
ordinary weight vector; its return type offers no distinct failure
condition at all. -/
theorem divergence_not_surfaced_cex :
    ((fun _ => ⟨fun _ => 1, false⟩ :
        MinimizeProblem 2 → OptimizeResult 2)
        (minVolProblem ![0.1, 0.2] (1 : Matrix (Fin 2) (Fin 2) ℝ)
          (some 0.5))).success = false ∧
      minimize_volatility
          (fun _ => ⟨fun _ => 1, false⟩ :
            MinimizeProblem 2 → OptimizeResult 2)
          ![0.1, 0.2] (1 : Matrix (Fin 2) (Fin 2) ℝ) (some 0.5) =
        fun _ => 1 :=
  ⟨rfl, rfl⟩

/-- Claim C8: with a single asset the equal-weight initial guess
np.repeat(1/1, 1) is the vector [1.0], and any solver iterate that
satisfies the equality constraints handed over (here just sum-to-one,
the solvers being called without target) is exactly [1.0]; both solvers
therefore return [1.0]. -/
theorem single_asset_solvers_return_one
    (solver : MinimizeProblem 1 → OptimizeResult 1) (rets : Fin 1 → ℝ)
    (covmatrix : Matrix (Fin 1) (Fin 1) ℝ) (risk_free_rate : ℝ)
    (periods_per_year : ℕ)
    (hmv : ∀ c ∈ (minVolProblem rets covmatrix none).eqConstraints,
      c (minimize_volatility solver rets covmatrix none) = 0)
    (hms : ∀ c ∈ (maxSRProblem rets covmatrix risk_free_rate periods_per_year
        none).eqConstraints,
      c (maximize_shape_ratio solver rets covmatrix risk_free_rate
          periods_per_year none) = 0) :
    (minVolProblem rets covmatrix none).x0 = (fun _ => 1) ∧
      (maxSRProblem rets covmatrix risk_free_rate periods_per_year
          none).x0 = (fun _ => 1) ∧
      minimize_volatility solver rets covmatrix none = (fun _ => 1) ∧
      maximize_shape_ratio solver rets covmatrix risk_free_rate
          periods_per_year none = (fun _ => 1) := by
  have hx0 : ∀ i : Fin 1, ((fun _ : Fin 1 => (((1 : ℕ) : ℝ))⁻¹) i) = 1 := by
    intro i
    norm_num
  have hone : ∀ x : Fin 1 → ℝ, 1 - (∑ i, x i) = 0 → x = fun _ => 1 := by
    intro x hx
    funext i
    have hi : i = 0 := Subsingleton.elim i 0
    rw [Fin.sum_univ_one] at hx
    rw [hi]
    linarith
  refine ⟨funext hx0, funext hx0, ?_, ?_⟩
  · exact hone _ (hmv (fun w => 1 - ∑ i, w i)
      (weights_constraint_mem_minVol rets covmatrix none))
  · exact hone _ (hms (fun w => 1 - ∑ i, w i)
      (weights_constraint_mem_maxSR rets covmatrix risk_free_rate
        periods_per_year none))

/-- Witness for C8: a concrete one-asset instance with a solver whose
iterate satisfies the sum-to-one constraint exactly. -/
theorem single_asset_solvers_return_one_witness :
    (∀ c ∈ (minVolProblem ![0.05] (1 : Matrix (Fin 1) (Fin 1) ℝ)
        none).eqConstraints,
      c (minimize_volatility
          (fun _ => ⟨fun _ => 1, true⟩ :
            MinimizeProblem 1 → OptimizeResult 1) ![0.05] 1 none) = 0) ∧
      (∀ c ∈ (maxSRProblem ![0.05] (1 : Matrix (Fin 1) (Fin 1) ℝ) 0.02 12
          none).eqConstraints,
        c (maximize_shape_ratio
            (fun _ => ⟨fun _ => 1, true⟩ :
              MinimizeProblem 1 → OptimizeResult 1) ![0.05] 1 0.02 12
            none) = 0) ∧
      ((minVolProblem ![0.05] (1 : Matrix (Fin 1) (Fin 1) ℝ) none).x0 =
          (fun _ => 1) ∧
        (maxSRProblem ![0.05] (1 : Matrix (Fin 1) (Fin 1) ℝ) 0.02 12
            none).x0 = (fun _ => 1) ∧
        minimize_volatility
            (fun _ => ⟨fun _ => 1, true⟩ :
              MinimizeProblem 1 → OptimizeResult 1) ![0.05] 1 none =
          (fun _ => 1) ∧
        maximize_shape_ratio
            (fun _ => ⟨fun _ => 1, true⟩ :
              MinimizeProblem 1 → OptimizeResult 1) ![0.05] 1 0.02 12 none =
          (fun _ => 1)) := by
  have hmv : ∀ c ∈ (minVolProblem ![0.05] (1 : Matrix (Fin 1) (Fin 1) ℝ)
      none).eqConstraints,
      c (minimize_volatility
          (fun _ => ⟨fun _ => 1, true⟩ :
            MinimizeProblem 1 → OptimizeResult 1) ![0.05] 1 none) = 0 := by
    intro c hc
    simp only [minVolProblem, List.mem_singleton] at hc
    subst hc
    norm_num [minimize_volatility]
  have hms : ∀ c ∈ (maxSRProblem ![0.05] (1 : Matrix (Fin 1) (Fin 1) ℝ) 0.02
      12 none).eqConstraints,
      c (maximize_shape_ratio
          (fun _ => ⟨fun _ => 1, true⟩ :
            MinimizeProblem 1 → OptimizeResult 1) ![0.05] 1 0.02 12
          none) = 0 := by
    intro c hc
    simp only [maxSRProblem, List.mem_singleton] at hc
    subst hc
    norm_num [maximize_shape_ratio]
  exact ⟨hmv, hms,
    single_asset_solvers_return_one _ ![0.05] 1 0.02 12 hmv hms⟩

/-- A nonsingular matrix is inverted to the canonical matrix inverse by
the spec-modelled inverse_df. -/
theorem inverse_df_eq_inv {n : ℕ} (d : Matrix (Fin n) (Fin n) ℚ)
    (h : d.det ≠ 0) : inverse_df d = some d⁻¹ := by
  rw [inverse_df, if_neg h, Matrix.inv_def, Ring.inverse_eq_inv']

/-- Claim C6: when the covariance matrix handed to the closed-form tangency
routine is singular, the routine signals the distinguishable
SingularCovariance error instead of returning weights. -/
theorem tangency_singular_covariance_error {n : ℕ}
    (covmat : Matrix (Fin n) (Fin n) ℚ) (mu_exc : Fin n → ℚ) (scale : Bool)
    (h : covmat.det = 0) :
    weigths_max_sharpe_ratio covmat mu_exc scale =
      .error .singularCovariance := by
  simp [weigths_max_sharpe_ratio, inverse_df, h]

/-- Witness for C6: the singular all-ones 2x2 covariance matrix. -/
theorem tangency_singular_covariance_error_witness :
    (!![1, 1; 1, 1] : Matrix (Fin 2) (Fin 2) ℚ).det = 0 ∧
      weigths_max_sharpe_ratio (!![1, 1; 1, 1] : Matrix (Fin 2) (Fin 2) ℚ)
          ![1, 2] true = .error .singularCovariance := by
  have h : (!![1, 1; 1, 1] : Matrix (Fin 2) (Fin 2) ℚ).det = 0 := by
    rw [Matrix.det_fin_two_of]
    norm_num
  exact ⟨h, tangency_singular_covariance_error _ ![1, 2] true h⟩

/-- Claim C5 (amended): for an invertible covariance matrix the routine
computes w = Σ⁻¹ · μ_excess (returned as-is when scale is off), and,
provided the components of Σ⁻¹ · μ_excess do not sum to zero, the
scale=True result is that vector normalized by its sum, which then sums
exactly to 1. -/
theorem tangency_closed_form_weights {n : ℕ}
    (covmat : Matrix (Fin n) (Fin n) ℚ) (mu_exc : Fin n → ℚ)
    (hdet : covmat.det ≠ 0)
    (hsum : (∑ j, (covmat⁻¹ *ᵥ mu_exc) j) ≠ 0) :
    weigths_max_sharpe_ratio covmat mu_exc false =
        .ok (covmat⁻¹ *ᵥ mu_exc) ∧
      weigths_max_sharpe_ratio covmat mu_exc true =
        .ok (fun i =>
          (covmat⁻¹ *ᵥ mu_exc) i / ∑ j, (covmat⁻¹ *ᵥ mu_exc) j) ∧
      (∑ i, (covmat⁻¹ *ᵥ mu_exc) i / ∑ j, (covmat⁻¹ *ᵥ mu_exc) j) = 1 := by
  have hinv := inverse_df_eq_inv covmat hdet
  refine ⟨?_, ?_, ?_⟩
  · simp [weigths_max_sharpe_ratio, hinv]
  · simp [weigths_max_sharpe_ratio, hinv]
  · rw [← Finset.sum_div, div_self hsum]

/-- Witness for C5 (amended): the 2x2 identity covariance with excess
returns (1, 1). -/
theorem tangency_closed_form_weights_witness :
    ((1 : Matrix (Fin 2) (Fin 2) ℚ).det ≠ 0) ∧
      ((∑ j, ((1 : Matrix (Fin 2) (Fin 2) ℚ)⁻¹ *ᵥ ![1, 1]) j) ≠ 0) ∧
      (weigths_max_sharpe_ratio (1 : Matrix (Fin 2) (Fin 2) ℚ) ![1, 1]
            false = .ok ((1 : Matrix (Fin 2) (Fin 2) ℚ)⁻¹ *ᵥ ![1, 1]) ∧
        weigths_max_sharpe_ratio (1 : Matrix (Fin 2) (Fin 2) ℚ) ![1, 1]
            true =
          .ok (fun i =>
            ((1 : Matrix (Fin 2) (Fin 2) ℚ)⁻¹ *ᵥ ![1, 1]) i /
              ∑ j, ((1 : Matrix (Fin 2) (Fin 2) ℚ)⁻¹ *ᵥ ![1, 1]) j) ∧
        (∑ i, ((1 : Matrix (Fin 2) (Fin 2) ℚ)⁻¹ *ᵥ ![1, 1]) i /
            ∑ j, ((1 : Matrix (Fin 2) (Fin 2) ℚ)⁻¹ *ᵥ ![1, 1]) j) = 1) := by
  have hdet : (1 : Matrix (Fin 2) (Fin 2) ℚ).det ≠ 0 := by
    norm_num [Matrix.det_one]
  have hsum : (∑ j, ((1 : Matrix (Fin 2) (Fin 2) ℚ)⁻¹ *ᵥ ![1, 1]) j) ≠ 0 := by
    norm_num [inv_one, Matrix.one_mulVec, Fin.sum_univ_two]
  exact ⟨hdet, hsum, tangency_closed_form_weights _ ![1, 1] hdet hsum⟩

/-- Counterexample for C5 as stated: with the (invertible) 2x2 identity
covariance and excess returns (1, -1), the unnormalized tangency weights
sum to zero, so the scale=True rescaling divides by zero and the returned
weights do not sum to 1 (in floats the entries become infinities; in this
exact embedding division by zero yields the zero vector). -/
theorem tangency_scaled_weights_sum_cex :
    (1 : Matrix (Fin 2) (Fin 2) ℚ).det ≠ 0 ∧
      (∑ i, (![1, -1] : Fin 2 → ℚ) i) = 0 ∧
      weigths_max_sharpe_ratio (1 : Matrix (Fin 2) (Fin 2) ℚ) ![1, -1]
          true = .ok ![0, 0] ∧
      (∑ i, (![0, 0] : Fin 2 → ℚ) i) ≠ 1 := by
  have hdet : (1 : Matrix (Fin 2) (Fin 2) ℚ).det ≠ 0 := by
    norm_num [Matrix.det_one]
  have hinv : inverse_df (1 : Matrix (Fin 2) (Fin 2) ℚ) = some 1 := by
    rw [inverse_df_eq_inv _ hdet, inv_one]
  refine ⟨hdet, by norm_num [Fin.sum_univ_two], ?_,
    by norm_num [Fin.sum_univ_two]⟩
  simp only [weigths_max_sharpe_ratio, hinv, Matrix.one_mulVec, if_true]
  congr 1
  funext i
  fin_cases i <;> norm_num [Fin.sum_univ_two]

/-- The list-level quadratic form errors whenever the covariance matrix
is not compatible with the weight vector: either some row mismatches the
weights (the inner np.dot fails) or the row count does (the outer np.dot
fails). -/
theorem quadFormL_eq_none {w : List ℚ} {cov : List (List ℚ)}
    (h : ¬ (cov.length = w.length ∧ ∀ row ∈ cov, row.length = w.length)) :
    quadFormL w cov = none := by
  unfold quadFormL matVecL
  by_cases hrow : ∀ row ∈ cov, row.length = w.length
  · rw [if_pos hrow]
    have hlc : ¬ cov.length = w.length := fun hc => h ⟨hc, hrow⟩
    show dotL w _ = none
    unfold dotL
    rw [if_neg]
    simp only [List.length_map]
    exact fun hc => hlc hc.symm
  · rw [if_neg hrow]
    rfl

/-- Claim C9 (amended): the source performs no shape validation at all; for any
mismatched covariance matrix the solver is still invoked and its iterate
returned, and the shape mismatch surfaces only as an error (none) from
inside the objective when the solver evaluates it, here already at the
initial guess. -/
theorem no_shape_validation_before_solver
    (solver : MinimizeProblemL → OptimizeResultL) (rets : List ℚ)
    (covmatrix : List (List ℚ)) (target_return : Option ℚ)
    (hbad : covShapeMismatchL rets covmatrix) :
    minimize_volatilityL solver rets covmatrix target_return =
        (solver (minVolProblemL rets covmatrix target_return)).x ∧
      (minVolProblemL rets covmatrix target_return).objective
          (minVolProblemL rets covmatrix target_return).x0 = none := by
  refine ⟨rfl, ?_⟩
  have hx0 : (minVolProblemL rets covmatrix target_return).x0.length =
      rets.length := by
    simp [minVolProblemL]
  have hq : quadFormL (minVolProblemL rets covmatrix target_return).x0
      covmatrix = none := by
    apply quadFormL_eq_none
    rw [hx0]
    exact hbad
  have hobj : (minVolProblemL rets covmatrix target_return).objective
      (minVolProblemL rets covmatrix target_return).x0 =
      (quadFormL (minVolProblemL rets covmatrix target_return).x0
          covmatrix).map (fun q => Real.sqrt q) := rfl
  rw [hobj, hq]
  rfl

/-- Witness for C9 (amended): a two-asset return vector with a 1x1
covariance matrix. -/
theorem no_shape_validation_before_solver_witness :
    covShapeMismatchL [1, 2] [[1]] ∧
      (minimize_volatilityL (fun _ => ⟨[1, 1]⟩) [1, 2] [[1]] none =
          ((fun _ => ⟨[1, 1]⟩ : MinimizeProblemL → OptimizeResultL)
            (minVolProblemL [1, 2] [[1]] none)).x ∧
        (minVolProblemL [1, 2] [[1]] none).objective
            (minVolProblemL [1, 2] [[1]] none).x0 = none) := by
  have hbad : covShapeMismatchL [1, 2] [[1]] := by
    unfold covShapeMismatchL
    decide
  exact ⟨hbad,
    no_shape_validation_before_solver (fun _ => ⟨[1, 1]⟩) [1, 2] [[1]] none
      hbad⟩

/-- Counterexample for C9 as stated: on a concrete mismatched input (two
assets, 1x1 covariance) no InputShapeError is raised before the solver is
invoked: the output still depends on which solver is supplied (so the
solver is reached), and the mismatch only errors the objective when it is
evaluated at the initial guess, i.e. inside the solve. -/
theorem shape_error_not_failfast_cex :
    covShapeMismatchL [1, 2] [[1]] ∧
      minimize_volatilityL (fun _ => ⟨[0, 0]⟩) [1, 2] [[1]] none ≠
        minimize_volatilityL (fun _ => ⟨[1, 1]⟩) [1, 2] [[1]] none ∧
      (minVolProblemL [1, 2] [[1]] none).objective
          (minVolProblemL [1, 2] [[1]] none).x0 = none := by
  refine ⟨by unfold covShapeMismatchL; decide, ?_, ?_⟩
  · have h1 : minimize_volatilityL (fun _ => ⟨[0, 0]⟩) [1, 2] [[1]] none =
        [0, 0] := rfl
    have h2 : minimize_volatilityL (fun _ => ⟨[1, 1]⟩) [1, 2] [[1]] none =
        [1, 1] := rfl
    rw [h1, h2]
    decide
  · have hq : quadFormL (minVolProblemL [1, 2] [[1]] none).x0 [[1]] =
        none := by decide
    have hobj : (minVolProblemL [1, 2] [[1]] none).objective
        (minVolProblemL [1, 2] [[1]] none).x0 =
        (quadFormL (minVolProblemL [1, 2] [[1]] none).x0 [[1]]).map
          (fun q => Real.sqrt q) := rfl
    rw [hobj, hq]
    rfl

/-- The target grid has exactly num entries. -/
theorem linspace_length (start stop : ℝ) (num : ℕ) :
    (linspace start stop num).length = num := by
  rw [linspace, List.length_map, List.length_range]

/-- Closed form of the i-th grid point. -/
theorem linspace_get (start stop : ℝ) (num : ℕ) (i : ℕ)
    (h : i < (linspace start stop num).length) :
    (linspace start stop num).get ⟨i, h⟩ =
      start + (i : ℝ) * ((stop - start) / ((num : ℝ) - 1)) := by
  simp only [linspace, List.get_eq_getElem, List.getElem_map,
    List.getElem_range]

/-- The smallest entry of a return vector is at most the largest. -/
theorem vecMin_le_vecMax {n : ℕ} (f : Fin n → ℝ) : vecMin f ≤ vecMax f := by
  unfold vecMin vecMax
  by_cases h : 0 < n
  · rw [dif_pos h, dif_pos h]
    exact le_trans (Finset.inf'_le f (Finset.mem_univ ⟨0, h⟩))
      (Finset.le_sup' f (Finset.mem_univ ⟨0, h⟩))
  · rw [dif_neg h, dif_neg h]

/-- Claim C4: the frontier builder's target grid consists of exactly
n_portfolios equally spaced points running inclusively from the smallest
to the largest annualized return, and (when the solver meets the
target-return equality constraint on each grid point) the frontier's
returns column equals the grid and is monotonically non-decreasing in
grid order. -/
theorem frontier_grid_equally_spaced_and_monotone {T n : ℕ}
    (solver : MinimizeProblem n → OptimizeResult n) (n_portfolios : ℕ)
    (rets : Matrix (Fin T) (Fin n) ℝ) (covmat : Matrix (Fin n) (Fin n) ℝ)
    (periods_per_year : ℕ) (risk_free_rate : ℝ) (ann_rets : Fin n → ℝ)
    (grid : List ℝ)
    (hann : ann_rets =
      fun j => annualize_rets (fun t => rets t j) periods_per_year)
    (hgrid : grid =
      linspace (vecMin ann_rets) (vecMax ann_rets) n_portfolios)
    (hnp : 2 ≤ n_portfolios)
    (hfeas : ∀ target ∈ grid,
      portfolio_return
          (minimize_volatility solver ann_rets covmat (some target))
          ann_rets = target) :
    grid.length = n_portfolios ∧
      (∀ h0 : 0 < grid.length, grid.get ⟨0, h0⟩ = vecMin ann_rets) ∧
      (∀ hl : n_portfolios - 1 < grid.length,
        grid.get ⟨n_portfolios - 1, hl⟩ = vecMax ann_rets) ∧
      (∀ i : ℕ, ∀ h1 : i + 1 < grid.length, ∀ h2 : i < grid.length,
        grid.get ⟨i + 1, h1⟩ - grid.get ⟨i, h2⟩ =
          (vecMax ann_rets - vecMin ann_rets) / ((n_portfolios : ℝ) - 1)) ∧
      (efficient_frontier solver n_portfolios rets covmat periods_per_year
          risk_free_rate).efRet = grid ∧
      (∀ i j : ℕ,
        ∀ hi : i < (efficient_frontier solver n_portfolios rets covmat
            periods_per_year risk_free_rate).efRet.length,
        ∀ hj : j < (efficient_frontier solver n_portfolios rets covmat
            periods_per_year risk_free_rate).efRet.length,
        i ≤ j →
          (efficient_frontier solver n_portfolios rets covmat
              periods_per_year risk_free_rate).efRet.get ⟨i, hi⟩ ≤
            (efficient_frontier solver n_portfolios rets covmat
                periods_per_year risk_free_rate).efRet.get ⟨j, hj⟩) := by
  subst hann
  subst hgrid
  have hN : (2 : ℝ) ≤ (n_portfolios : ℝ) := by exact_mod_cast hnp
  have hNne : ((n_portfolios : ℝ) - 1) ≠ 0 := by linarith
  have hab := vecMin_le_vecMax
    (fun j => annualize_rets (fun t => rets t j) periods_per_year)
  have hstep : 0 ≤
      (vecMax (fun j => annualize_rets (fun t => rets t j) periods_per_year) -
        vecMin (fun j => annualize_rets (fun t => rets t j)
          periods_per_year)) / ((n_portfolios : ℝ) - 1) :=
    div_nonneg (by linarith) (by linarith)
  have hef : (efficient_frontier solver n_portfolios rets covmat
      periods_per_year risk_free_rate).efRet =
      (linspace
          (vecMin (fun j => annualize_rets (fun t => rets t j)
            periods_per_year))
          (vecMax (fun j => annualize_rets (fun t => rets t j)
            periods_per_year)) n_portfolios).map
        (fun target =>
          portfolio_return
            (minimize_volatility solver
              (fun j => annualize_rets (fun t => rets t j) periods_per_year)
              covmat (some target))
            (fun j => annualize_rets (fun t => rets t j)
              periods_per_year)) := by
    simp only [efficient_frontier, optimal_weights, List.map_map]
    rfl
  have hefgrid : (efficient_frontier solver n_portfolios rets covmat
      periods_per_year risk_free_rate).efRet =
      linspace
        (vecMin (fun j => annualize_rets (fun t => rets t j)
          periods_per_year))
        (vecMax (fun j => annualize_rets (fun t => rets t j)
          periods_per_year)) n_portfolios := by
    rw [hef]
    rw [List.map_congr_left hfeas]
    exact List.map_id _
  refine ⟨linspace_length _ _ _, ?_, ?_, ?_, hefgrid, ?_⟩
  · intro h0
    rw [linspace_get]
    simp
  · intro hl
    rw [linspace_get]
    rw [Nat.cast_sub (by omega), Nat.cast_one]
    field_simp
  · intro i h1 h2
    rw [linspace_get, linspace_get]
    push_cast
    ring
  · intro i j hi hj hij
    have hi2 : i < (linspace
        (vecMin (fun j => annualize_rets (fun t => rets t j)
          periods_per_year))
        (vecMax (fun j => annualize_rets (fun t => rets t j)
          periods_per_year)) n_portfolios).length := by
      rw [← hefgrid]
      exact hi
    have hj2 : j < (linspace
        (vecMin (fun j => annualize_rets (fun t => rets t j)
          periods_per_year))
        (vecMax (fun j => annualize_rets (fun t => rets t j)
          periods_per_year)) n_portfolios).length := by
      rw [← hefgrid]
      exact hj
    have hgi := List.get_of_eq hefgrid ⟨i, hi⟩
    have hgj := List.get_of_eq hefgrid ⟨j, hj⟩
    rw [hgi, hgj, linspace_get, linspace_get]
    have hij2 : (i : ℝ) ≤ (j : ℝ) := by exact_mod_cast hij
    have := mul_le_mul_of_nonneg_right hij2 hstep
    linarith

/-- Witness for C4: one asset with zero returns over one period, a grid
of two points, and a solver whose iterate meets the target-return
constraint on every grid point. -/
theorem frontier_grid_equally_spaced_and_monotone_witness :
    ((fun _ : Fin 1 => (0 : ℝ)) =
        fun j => annualize_rets
          (fun t => (0 : Matrix (Fin 1) (Fin 1) ℝ) t j) 1) ∧
      (([0, 0] : List ℝ) =
        linspace (vecMin (fun _ : Fin 1 => (0 : ℝ)))
          (vecMax (fun _ : Fin 1 => (0 : ℝ))) 2) ∧
      2 ≤ 2 ∧
      (∀ target ∈ ([0, 0] : List ℝ),
        portfolio_return
            (minimize_volatility
              (fun _ => ⟨fun _ => 1, true⟩ :
                MinimizeProblem 1 → OptimizeResult 1)
              (fun _ : Fin 1 => (0 : ℝ)) 1 (some target))
            (fun _ : Fin 1 => (0 : ℝ)) = target) ∧
      (([0, 0] : List ℝ).length = 2 ∧
        (∀ h0 : 0 < ([0, 0] : List ℝ).length,
          ([0, 0] : List ℝ).get ⟨0, h0⟩ =
            vecMin (fun _ : Fin 1 => (0 : ℝ))) ∧
        (∀ hl : 2 - 1 < ([0, 0] : List ℝ).length,
          ([0, 0] : List ℝ).get ⟨2 - 1, hl⟩ =
            vecMax (fun _ : Fin 1 => (0 : ℝ))) ∧
        (∀ i : ℕ, ∀ h1 : i + 1 < ([0, 0] : List ℝ).length,
          ∀ h2 : i < ([0, 0] : List ℝ).length,
          ([0, 0] : List ℝ).get ⟨i + 1, h1⟩ -
              ([0, 0] : List ℝ).get ⟨i, h2⟩ =
            (vecMax (fun _ : Fin 1 => (0 : ℝ)) -
                vecMin (fun _ : Fin 1 => (0 : ℝ))) /
              (((2 : ℕ) : ℝ) - 1)) ∧
        (efficient_frontier
            (fun _ => ⟨fun _ => 1, true⟩ :
              MinimizeProblem 1 → OptimizeResult 1) 2
            (0 : Matrix (Fin 1) (Fin 1) ℝ) (1 : Matrix (Fin 1) (Fin 1) ℝ) 1
            0).efRet = ([0, 0] : List ℝ) ∧
        (∀ i j : ℕ,
          ∀ hi : i < (efficient_frontier
              (fun _ => ⟨fun _ => 1, true⟩ :
                MinimizeProblem 1 → OptimizeResult 1) 2
              (0 : Matrix (Fin 1) (Fin 1) ℝ) (1 : Matrix (Fin 1) (Fin 1) ℝ)
              1 0).efRet.length,
          ∀ hj : j < (efficient_frontier
              (fun _ => ⟨fun _ => 1, true⟩ :
                MinimizeProblem 1 → OptimizeResult 1) 2
              (0 : Matrix (Fin 1) (Fin 1) ℝ) (1 : Matrix (Fin 1) (Fin 1) ℝ)
              1 0).efRet.length,
          i ≤ j →
            (efficient_frontier
                (fun _ => ⟨fun _ => 1, true⟩ :
                  MinimizeProblem 1 → OptimizeResult 1) 2
                (0 : Matrix (Fin 1) (Fin 1) ℝ) (1 : Matrix (Fin 1) (Fin 1) ℝ)
                1 0).efRet.get ⟨i, hi⟩ ≤
              (efficient_frontier
                  (fun _ => ⟨fun _ => 1, true⟩ :
                    MinimizeProblem 1 → OptimizeResult 1) 2
                  (0 : Matrix (Fin 1) (Fin 1) ℝ)
                  (1 : Matrix (Fin 1) (Fin 1) ℝ) 1 0).efRet.get
                ⟨j, hj⟩)) := by
  have hann : (fun _ : Fin 1 => (0 : ℝ)) =
      fun j => annualize_rets
        (fun t => (0 : Matrix (Fin 1) (Fin 1) ℝ) t j) 1 := by
    funext j
    simp [annualize_rets]
  have hmin : vecMin (fun _ : Fin 1 => (0 : ℝ)) = 0 := by
    rw [vecMin, dif_pos (by norm_num : 0 < 1)]
    exact Finset.inf'_const _ _
  have hmax : vecMax (fun _ : Fin 1 => (0 : ℝ)) = 0 := by
    rw [vecMax, dif_pos (by norm_num : 0 < 1)]
    exact Finset.sup'_const _ _
  have hgrid : ([0, 0] : List ℝ) =
      linspace (vecMin (fun _ : Fin 1 => (0 : ℝ)))
        (vecMax (fun _ : Fin 1 => (0 : ℝ))) 2 := by
    rw [hmin, hmax]
    simp [linspace, List.range_succ]
  have hfeas : ∀ target ∈ ([0, 0] : List ℝ),
      portfolio_return
          (minimize_volatility
            (fun _ => ⟨fun _ => 1, true⟩ :
              MinimizeProblem 1 → OptimizeResult 1)
            (fun _ : Fin 1 => (0 : ℝ)) 1 (some target))
          (fun _ : Fin 1 => (0 : ℝ)) = target := by
    intro target ht
    have ht0 : target = 0 := by
      rcases List.mem_cons.mp ht with h | h
      · exact h
      · simpa using h
    subst ht0
    simp [minimize_volatility, portfolio_return, dotProduct]
  exact ⟨hann, hgrid, le_refl 2, hfeas,
    frontier_grid_equally_spaced_and_monotone
      (fun _ => ⟨fun _ => 1, true⟩) 2 (0 : Matrix (Fin 1) (Fin 1) ℝ)
      (1 : Matrix (Fin 1) (Fin 1) ℝ) 1 0 (fun _ : Fin 1 => (0 : ℝ))
      ([0, 0] : List ℝ) hann hgrid (le_refl 2) hfeas⟩

end EdhecRiskKit
